import Mathlib

/-!
# Verification of the Binotto metrics aggregation backend

Shallow embedding of the aggregation core of the Express backend
(`summarizeBlock`, month series, deltas, YTD, entity filtering, the
`/analyze-obras` pure part of the handler).  JavaScript numbers are modelled as
either `NaN` or an exact rational (`JsNum`); JSON-absent fields are `Option`.
-/

namespace Binotto

/-- A JavaScript number: either `NaN` or a finite numeric value, modelled as an
exact rational.  (`Infinity` never arises in the arithmetic of the aggregation core
over finite inputs, so it is not modelled.) -/
inductive JsNum where
  | nan : JsNum
  | num : ℚ → JsNum
  deriving DecidableEq

/-- Source `Number(x ?? 0)`: a JSON-absent field coerces to `0`; a present numeric
value is unchanged (`Number` on a number is the identity). -/
def coalesce (x : Option JsNum) : JsNum := x.getD (JsNum.num 0)

/-- Source `const money = (v) => Number(v) || 0`: `NaN` is falsy so it collapses to
`0`; `0` maps to `0`; every other number is returned unchanged. -/
def money : JsNum → ℚ
  | JsNum.nan => 0
  | JsNum.num q => q

/-- Percent-mode accumulation step: `if (!Number.isNaN(m)) meta += m`. -/
def addNonNaN (acc : ℚ) : JsNum → ℚ
  | JsNum.nan => acc
  | JsNum.num q => acc + q

/-- One input row of `/analyze-obras` after Zod validation: `obra` and `mes`
are required strings, `ano` and all metric fields are optional numbers. -/
structure Row where
  obra : String
  ano : Option Int := none
  mes : String
  prazo_pedido_meta : Option JsNum := none
  prazo_pedido_real : Option JsNum := none
  prazo_entrega_meta : Option JsNum := none
  prazo_entrega_real : Option JsNum := none
  pontualidade_meta : Option JsNum := none
  pontualidade_real : Option JsNum := none
  negociacao_meta : Option JsNum := none
  negociacao_real : Option JsNum := none
  deriving DecidableEq

/-- The aggregate block `{ meta, real, perc }` returned by `summarizeBlock`
(spec names: target, actual, percentOfTarget). -/
structure Block where
  meta : ℚ
  real : ℚ
  perc : ℚ
  deriving DecidableEq

/-- Source `MONTHS_ORDER`: the twelve canonical month codes in calendar order. -/
def MONTHS_ORDER : List String :=
  ["JAN", "FEV", "MAR", "ABR", "MAI", "JUN", "JUL", "AGO", "SET", "OUT", "NOV", "DEZ"]

/-- Source `normalizeMes`: trim, first three characters, upper-case. -/
def normalizeMes (m : String) : String := ((m.trim).take 3).toUpper

/-- The `rows.forEach` body of `summarizeBlock`, acting on the accumulator
`(meta, real, n)`.  In percent mode each non-`NaN` value is added and `n`
is always incremented; in summed mode `money` coerces `NaN` to `0`. -/
def summarizeStep (metaKey realKey : Row → Option JsNum) (isPercent : Bool)
    (acc : ℚ × ℚ × ℕ) (r : Row) : ℚ × ℚ × ℕ :=
  let m := coalesce (metaKey r)
  let v := coalesce (realKey r)
  if isPercent then
    (addNonNaN acc.1 m, addNonNaN acc.2.1 v, acc.2.2 + 1)
  else
    (acc.1 + money m, acc.2.1 + money v, acc.2.2)

/-- Source `summarizeBlock(rows, metaKey, realKey, isPercent)`: fold the step over
the rows, divide by `n` in percent mode (`0` when `n = 0`), then
`perc = meta ? (real / meta) * 100 : 0`. -/
def summarizeBlock (rows : List Row) (metaKey realKey : Row → Option JsNum)
    (isPercent : Bool) : Block :=
  let st := rows.foldl (summarizeStep metaKey realKey isPercent) (0, 0, 0)
  let meta := if isPercent then (if st.2.2 ≠ 0 then st.1 / (st.2.2 : ℚ) else 0) else st.1
  let real := if isPercent then (if st.2.2 ≠ 0 then st.2.1 / (st.2.2 : ℚ) else 0) else st.2.1
  let perc := if meta ≠ 0 then real / meta * 100 else 0
  ⟨meta, real, perc⟩

/-- The month-over-month delta object.  `monthDelta` applied to two blocks
produces an object whose keys are exactly the numeric keys of a block,
namely `meta`, `real` and `perc`; `empty` is the `{}` returned when either
block is absent (and the `{}` given to month index 0). -/
inductive DeltaMap where
  | empty : DeltaMap
  | full (meta real perc : ℚ) : DeltaMap
  deriving DecidableEq

/-- Source `monthDelta(curr, prev)`: `{}` when either argument is missing; otherwise
one numeric difference per (shared, numeric) key of the blocks, i.e. exactly
`meta`, `real` and `perc`. -/
def monthDelta : Option Block → Option Block → DeltaMap
  | some c, some p => DeltaMap.full (c.meta - p.meta) (c.real - p.real) (c.perc - p.perc)
  | some _, none => DeltaMap.empty
  | none, _ => DeltaMap.empty

/-- Source `r.ano ?? ano ?? new Date().getFullYear()` together with
`mes: normalizeMes(r.mes)`: the per-row normalization in `/analyze-obras`.
`currentYear` stands for `new Date().getFullYear()`. -/
def normRow (ano : Option Int) (currentYear : Int) (r : Row) : Row :=
  { r with mes := normalizeMes r.mes, ano := some (r.ano.getD (ano.getD currentYear)) }

/-- Source `const obraSel = obra && obra !== "Todas" ? obra : null`: the empty string
is falsy, so both an absent `obra` and `""` and `"Todas"` give `null`. -/
def obraSel (obra : Option String) : Option String :=
  match obra with
  | some s => if s ≠ "" ∧ s ≠ "Todas" then some s else none
  | none => none

/-- Source `norm.filter((r) => (obraSel ? r.obra === obraSel : true))`. -/
def filterObra (rows : List Row) (obra : Option String) : List Row :=
  rows.filter (fun r =>
    match obraSel obra with
    | some s => r.obra == s
    | none => true)

/-- JavaScript truthiness of the optional request year `ano` as used in
`!ano`: `undefined` and `0` are falsy. -/
def anoFalsy : Option Int → Bool
  | none => true
  | some a => a == 0

/-- The per-month-bucket year test `(!ano || r.ano === ano)`. -/
def yearTest (ano : Option Int) (r : Row) : Bool :=
  anoFalsy ano || r.ano == ano

/-- The rows selected for one month bucket:
`filtered.filter((r) => r.mes === m && (!ano || r.ano === ano))`. -/
def bucketRows (filtered : List Row) (ano : Option Int) (m : String) : List Row :=
  filtered.filter (fun r => r.mes == m && yearTest ano r)

/-- One element of the `months` array: the month code plus the four metric
blocks (spec: MonthRecord before deltas). -/
structure MonthRec where
  mes : String
  prazo_pedido : Block
  prazo_entrega : Block
  pontualidade : Block
  negociacao : Block
  deriving DecidableEq

/-- The body of `MONTHS_ORDER.map((m) => ...)`: four `summarizeBlock` calls
over the bucket of the month, percent mode for pontualidade and negociacao. -/
def buildMonth (filtered : List Row) (ano : Option Int) (m : String) : MonthRec :=
  let rs := bucketRows filtered ano m
  { mes := m
    prazo_pedido := summarizeBlock rs (fun r => r.prazo_pedido_meta) (fun r => r.prazo_pedido_real) false
    prazo_entrega := summarizeBlock rs (fun r => r.prazo_entrega_meta) (fun r => r.prazo_entrega_real) false
    pontualidade := summarizeBlock rs (fun r => r.pontualidade_meta) (fun r => r.pontualidade_real) true
    negociacao := summarizeBlock rs (fun r => r.negociacao_meta) (fun r => r.negociacao_real) true }

/-- Source `const months = MONTHS_ORDER.map((m) => ...)`. -/
def months (filtered : List Row) (ano : Option Int) : List MonthRec :=
  MONTHS_ORDER.map (buildMonth filtered ano)

/-- One element of `monthsWithDelta`: the month record spread together with
its `delta` object holding one `DeltaMap` per metric category. -/
structure MonthWithDelta where
  row : MonthRec
  delta_prazo_pedido : DeltaMap
  delta_prazo_entrega : DeltaMap
  delta_pontualidade : DeltaMap
  delta_negociacao : DeltaMap
  deriving DecidableEq

/-- The body of `months.map((row, idx) => ...)`: for `idx > 0` take deltas
against `months[idx - 1]`, else `{}` for every category. -/
def mkDelta (prev : Option MonthRec) (row : MonthRec) : MonthWithDelta :=
  { row := row
    delta_prazo_pedido :=
      match prev with
      | some p => monthDelta (some row.prazo_pedido) (some p.prazo_pedido)
      | none => DeltaMap.empty
    delta_prazo_entrega :=
      match prev with
      | some p => monthDelta (some row.prazo_entrega) (some p.prazo_entrega)
      | none => DeltaMap.empty
    delta_pontualidade :=
      match prev with
      | some p => monthDelta (some row.pontualidade) (some p.pontualidade)
      | none => DeltaMap.empty
    delta_negociacao :=
      match prev with
      | some p => monthDelta (some row.negociacao) (some p.negociacao)
      | none => DeltaMap.empty }

/-- Source `const monthsWithDelta = months.map((row, idx) => ...)` where
`prev = idx > 0 ? months[idx - 1] : null`. -/
def monthsWithDelta (ms : List MonthRec) : List MonthWithDelta :=
  ms.enum.map (fun p => mkDelta (if p.1 > 0 then ms[p.1 - 1]? else none) p.2)

/-- The four YTD blocks, each a `summarizeBlock` over the whole (entity-)
filtered row set (source lines 278-283: `summarizeBlock(filtered, ...)`). -/
structure Ytd where
  prazo_pedido : Block
  prazo_entrega : Block
  pontualidade : Block
  negociacao : Block
  deriving DecidableEq

/-- Source `const ytd = ...`, four `summarizeBlock` calls over `filtered`. -/
def ytd (filtered : List Row) : Ytd :=
  { prazo_pedido := summarizeBlock filtered (fun r => r.prazo_pedido_meta) (fun r => r.prazo_pedido_real) false
    prazo_entrega := summarizeBlock filtered (fun r => r.prazo_entrega_meta) (fun r => r.prazo_entrega_real) false
    pontualidade := summarizeBlock filtered (fun r => r.pontualidade_meta) (fun r => r.pontualidade_real) true
    negociacao := summarizeBlock filtered (fun r => r.negociacao_meta) (fun r => r.negociacao_real) true }

/-- The aggregation result of `/analyze-obras` (everything computed before
the narrative call). -/
structure AnalyzeResult where
  ytd : Ytd
  meses : List MonthWithDelta
  deriving DecidableEq

/-- The pure aggregation pipeline of the `/analyze-obras` handler:
normalize, filter by entity, build the 12 month records with deltas, and
the YTD blocks. -/
def analyzeCore (ano : Option Int) (obra : Option String) (currentYear : Int)
    (rows : List Row) : AnalyzeResult :=
  let norm := rows.map (normRow ano currentYear)
  let filtered := filterObra norm obra
  { ytd := ytd filtered, meses := monthsWithDelta (months filtered ano) }

/-- Outcome of the narrative-generation collaborator (`openai.responses.create`
followed by text cleanup): it either throws or returns the cleaned raw text. -/
inductive NarrativeOutcome where
  | thrown : NarrativeOutcome
  | returned (raw : String) : NarrativeOutcome
  deriving DecidableEq

/-- The `try { ... analise = JSON.parse(raw) } catch { warn }` around the
narrative call: `analise` starts as `{}` (here `none`) and is replaced only
when the collaborator returns and `JSON.parse` (the `parse` parameter, `none`
meaning a parse failure/throw) succeeds. -/
def runAnalise {α : Type} (parse : String → Option α) : NarrativeOutcome → Option α
  | NarrativeOutcome.thrown => none
  | NarrativeOutcome.returned raw => parse raw

/-- The success response of `/analyze-obras`:
`res.json({ ok: true, obra, ano, ytd, meses, analise })`, where the response
`obra` is `obraSel || "Todas"` and `analise = none` models the empty object. -/
structure ObrasResponse (α : Type) where
  ok : Bool
  obra : String
  ano : Option Int
  ytd : Ytd
  meses : List MonthWithDelta
  analise : Option α

/-- The `/analyze-obras` handler on a validated request: run the pure
aggregation, attempt the narrative call, and always answer `ok: true` with
the aggregates and whatever `analise` the guarded narrative step produced. -/
def analyzeObrasHandler {α : Type} (parse : String → Option α)
    (outcome : NarrativeOutcome) (ano : Option Int) (obra : Option String)
    (currentYear : Int) (rows : List Row) : ObrasResponse α :=
  let core := analyzeCore ano obra currentYear rows
  { ok := true
    obra := (obraSel obra).getD "Todas"
    ano := ano
    ytd := core.ytd
    meses := core.meses
    analise := runAnalise parse outcome }

/-- Modelled from the spec: the reading in the claim of the YTD aggregator, in
which a present year filter restricts the YTD blocks to rows whose year
equals the requested year (the same restriction `bucketRows` applies).  This
definition follows the words of the spec and exists to be compared with `ytd`,
which is taken from the source. -/
def ytdSpecYearRestricted (filtered : List Row) (a : Int) : Ytd :=
  ytd (filtered.filter (fun r => r.ano == some a))

/-- The row contribution used by both `summarizeBlock` modes: coerce the
optional field with `?? 0`, then send `NaN` to `0`. -/
def contrib (key : Row → Option JsNum) (r : Row) : ℚ :=
  money (coalesce (key r))

/-- The sum of the coerced values of one metric field over a row list. -/
def sumKey (key : Row → Option JsNum) (l : List Row) : ℚ :=
  (l.map (contrib key)).sum

/-- A concrete row carrying only the two pontualidade fields (averaged mode). -/
def pontRow (m v : JsNum) : Row :=
  { obra := "X", mes := "JAN", pontualidade_meta := some m, pontualidade_real := some v }

/-- A concrete row carrying only the two prazo_pedido fields (summed mode). -/
def pedidoRow (m v : JsNum) : Row :=
  { obra := "X", mes := "JAN", prazo_pedido_meta := some m, prazo_pedido_real := some v }

/-- A concrete 2023 row used against a 2024 year filter. -/
def row2023 : Row :=
  { obra := "X", ano := some 2023, mes := "JAN",
    prazo_pedido_meta := some (JsNum.num 100), prazo_pedido_real := some (JsNum.num 50) }

/-- The delta object the spec prescribes for two present blocks: the three
field-wise differences `curr[field] - prev[field]`. -/
def fieldDiffs (c p : Block) : DeltaMap :=
  DeltaMap.full (c.meta - p.meta) (c.real - p.real) (c.perc - p.perc)

/-! ## Helper lemmas -/

theorem addNonNaN_eq (acc : ℚ) (m : JsNum) : addNonNaN acc m = acc + money m := by
  cases m
  · simp [addNonNaN, money]
  · simp [addNonNaN, money]

theorem foldl_summarizeStep_percent (mk rk : Row → Option JsNum) :
    ∀ (l : List Row) (m0 r0 : ℚ) (n0 : ℕ),
      l.foldl (summarizeStep mk rk true) (m0, r0, n0) =
        (m0 + sumKey mk l, r0 + sumKey rk l, n0 + l.length) := by
  intro l
  induction l with
  | nil => intro m0 r0 n0; simp [sumKey]
  | cons r t ih =>
      intro m0 r0 n0
      simp only [List.foldl_cons, summarizeStep, if_pos, addNonNaN_eq]
      rw [ih]
      simp [sumKey, contrib]
      constructor
      · ring
      · constructor
        · ring
        · omega

theorem foldl_summarizeStep_sum (mk rk : Row → Option JsNum) :
    ∀ (l : List Row) (m0 r0 : ℚ) (n0 : ℕ),
      l.foldl (summarizeStep mk rk false) (m0, r0, n0) =
        (m0 + sumKey mk l, r0 + sumKey rk l, n0) := by
  intro l
  induction l with
  | nil => intro m0 r0 n0; simp [sumKey]
  | cons r t ih =>
      intro m0 r0 n0
      simp only [List.foldl_cons, summarizeStep, if_neg]
      rw [ih]
      simp [sumKey, contrib]
      constructor
      · ring
      · ring

theorem summarizeBlock_percent_meta (l : List Row) (mk rk : Row → Option JsNum) :
    (summarizeBlock l mk rk true).meta =
      if l.length = 0 then 0 else sumKey mk l / (l.length : ℚ) := by
  simp only [summarizeBlock, foldl_summarizeStep_percent, zero_add]
  by_cases h : l.length = 0
  · simp [h]
  · simp [h]

theorem summarizeBlock_percent_real (l : List Row) (mk rk : Row → Option JsNum) :
    (summarizeBlock l mk rk true).real =
      if l.length = 0 then 0 else sumKey rk l / (l.length : ℚ) := by
  simp only [summarizeBlock, foldl_summarizeStep_percent, zero_add]
  by_cases h : l.length = 0
  · simp [h]
  · simp [h]

theorem summarizeBlock_sum_meta (l : List Row) (mk rk : Row → Option JsNum) :
    (summarizeBlock l mk rk false).meta = sumKey mk l := by
  simp only [summarizeBlock, foldl_summarizeStep_sum, zero_add]
  simp

theorem summarizeBlock_sum_real (l : List Row) (mk rk : Row → Option JsNum) :
    (summarizeBlock l mk rk false).real = sumKey rk l := by
  simp only [summarizeBlock, foldl_summarizeStep_sum, zero_add]
  simp

theorem summarizeBlock_perc (l : List Row) (mk rk : Row → Option JsNum) (b : Bool) :
    (summarizeBlock l mk rk b).perc =
      if (summarizeBlock l mk rk b).meta ≠ 0 then
        (summarizeBlock l mk rk b).real / (summarizeBlock l mk rk b).meta * 100
      else 0 := by
  simp only [summarizeBlock]

theorem summarizeBlock_nil (mk rk : Row → Option JsNum) (b : Bool) :
    summarizeBlock [] mk rk b = ⟨0, 0, 0⟩ := by
  cases b
  · rfl
  · rfl

theorem months_length (filtered : List Row) (ano : Option Int) :
    (months filtered ano).length = 12 := by
  simp [months, MONTHS_ORDER]

theorem monthsWithDelta_length (ms : List MonthRec) :
    (monthsWithDelta ms).length = ms.length := by
  simp [monthsWithDelta]

theorem monthsWithDelta_get (ms : List MonthRec) (i : ℕ) (h : i < ms.length)
    (h2 : i < (monthsWithDelta ms).length) :
    (monthsWithDelta ms).get ⟨i, h2⟩ =
      mkDelta (if 0 < i then ms[i - 1]? else none) (ms.get ⟨i, h⟩) := by
  simp [monthsWithDelta, List.get_eq_getElem]

theorem filterObra_eq_of_obraSel (l : List Row) (o1 o2 : Option String)
    (h : obraSel o1 = obraSel o2) : filterObra l o1 = filterObra l o2 := by
  unfold filterObra
  rw [h]

theorem analyzeCore_eq_of_obraSel (ano : Option Int) (o1 o2 : Option String)
    (cy : Int) (rows : List Row) (h : obraSel o1 = obraSel o2) :
    analyzeCore ano o1 cy rows = analyzeCore ano o2 cy rows := by
  simp only [analyzeCore]
  rw [filterObra_eq_of_obraSel _ _ _ h]

theorem obraSel_empty : obraSel (some "") = none := by
  simp [obraSel]

theorem obraSel_todas : obraSel (some "Todas") = none := by
  simp [obraSel]

theorem filterObra_of_obraSel_none (l : List Row) (o : Option String)
    (h : obraSel o = none) : filterObra l o = l := by
  unfold filterObra
  rw [h]
  exact List.filter_true l

theorem summarizeBlock_map (f : Row → Row) (mk rk : Row → Option JsNum) (b : Bool)
    (hm : ∀ r, mk (f r) = mk r) (hr : ∀ r, rk (f r) = rk r) (l : List Row) :
    summarizeBlock (l.map f) mk rk b = summarizeBlock l mk rk b := by
  have hstep : (fun (acc : ℚ × ℚ × ℕ) (r : Row) => summarizeStep mk rk b acc (f r)) =
      summarizeStep mk rk b := by
    funext acc r
    simp only [summarizeStep, hm, hr]
  simp only [summarizeBlock, List.foldl_map, hstep]

theorem ytd_map_normRow (a : Option Int) (cy : Int) (l : List Row) :
    ytd (l.map (normRow a cy)) = ytd l := by
  unfold ytd
  rw [summarizeBlock_map, summarizeBlock_map, summarizeBlock_map, summarizeBlock_map]
  all_goals intro r
  all_goals rfl

theorem filterObra_map_normRow (a : Option Int) (cy : Int) (o : Option String)
    (rows : List Row) :
    filterObra (rows.map (normRow a cy)) o = (filterObra rows o).map (normRow a cy) := by
  unfold filterObra
  induction rows with
  | nil => rfl
  | cons r t ih =>
      cases ho : obraSel o with
      | none =>
          simp only [ho] at ih ⊢
          simp [ih]
      | some s =>
          simp only [ho] at ih ⊢
          by_cases hr : r.obra = s
          · simp only [List.map_cons, List.filter_cons]
            have : (normRow a cy r).obra = r.obra := rfl
            simp [this, hr, ih]
          · simp only [List.map_cons, List.filter_cons]
            have : (normRow a cy r).obra = r.obra := rfl
            simp [this, hr, ih]

theorem analyzeCore_ytd_year_free (a a2 : Option Int) (cy cy2 : Int)
    (o : Option String) (rows : List Row) :
    (analyzeCore a o cy rows).ytd = (analyzeCore a2 o cy2 rows).ytd := by
  simp only [analyzeCore]
  rw [filterObra_map_normRow, filterObra_map_normRow, ytd_map_normRow, ytd_map_normRow]

theorem bucketRows_year (filtered : List Row) (a : Int) (m : String) (r : Row)
    (ha : a ≠ 0) (hm : r ∈ bucketRows filtered (some a) m) : r.ano = some a := by
  unfold bucketRows at hm
  rw [List.mem_filter] at hm
  have h2 := hm.2
  rw [Bool.and_eq_true] at h2
  have h3 := h2.2
  simp only [yearTest, anoFalsy] at h3
  rw [Bool.or_eq_true] at h3
  rcases h3 with h3 | h3
  · exact absurd (eq_of_beq h3) ha
  · exact eq_of_beq h3

/-! ## Claim theorems -/

/-- C2: in percent mode `summarizeBlock` divides the running sums by the total
row count `n` — every processed row increments `n`, and a `NaN` target or
actual value contributes `0` to the running sum (`contrib` coerces `NaN` to
`0`) — and returns target = actual = 0 when `n = 0`; on rows with targets
`[10, NaN, 20]` and actuals `[5, 5, 5]` it yields mean target 10, mean
actual 5 and percentOfTarget 50. -/
theorem percent_mode_divides_by_row_count (l : List Row) (mk rk : Row → Option JsNum) :
    ((summarizeBlock l mk rk true).meta =
        if l.length = 0 then 0 else sumKey mk l / (l.length : ℚ)) ∧
    ((summarizeBlock l mk rk true).real =
        if l.length = 0 then 0 else sumKey rk l / (l.length : ℚ)) ∧
    contrib (fun r => r.pontualidade_meta) (pontRow JsNum.nan (JsNum.num 5)) = 0 ∧
    summarizeBlock [pontRow (JsNum.num 10) (JsNum.num 5), pontRow JsNum.nan (JsNum.num 5),
        pontRow (JsNum.num 20) (JsNum.num 5)]
      (fun r => r.pontualidade_meta) (fun r => r.pontualidade_real) true = ⟨10, 5, 50⟩ := by
  refine ⟨summarizeBlock_percent_meta l mk rk, summarizeBlock_percent_real l mk rk, rfl, ?_⟩
  norm_num [summarizeBlock, summarizeStep, pontRow, coalesce, addNonNaN, money]

/-- C3: in summed mode `summarizeBlock` returns the sum over rows of the
coerced target field and the sum of the coerced actual field, where an absent
field (`none`) and a non-numeric value (`NaN`) coerce to 0; on rows
(target 100, actual 80) and (target 50, actual 60) it yields target 150,
actual 140 and percentOfTarget 280/3 ≈ 93.33. -/
theorem summed_mode_sums_coerced_fields (l : List Row) (mk rk : Row → Option JsNum) :
    (summarizeBlock l mk rk false).meta = sumKey mk l ∧
    (summarizeBlock l mk rk false).real = sumKey rk l ∧
    contrib (fun r => r.prazo_pedido_meta) (pontRow (JsNum.num 7) (JsNum.num 7)) = 0 ∧
    contrib (fun r => r.prazo_pedido_meta) (pedidoRow JsNum.nan JsNum.nan) = 0 ∧
    summarizeBlock [pedidoRow (JsNum.num 100) (JsNum.num 80),
        pedidoRow (JsNum.num 50) (JsNum.num 60)]
      (fun r => r.prazo_pedido_meta) (fun r => r.prazo_pedido_real) false =
      ⟨150, 140, 280 / 3⟩ := by
  refine ⟨summarizeBlock_sum_meta l mk rk, summarizeBlock_sum_real l mk rk, rfl, rfl, ?_⟩
  norm_num [summarizeBlock, summarizeStep, pedidoRow, coalesce, money]

/-- C7: for every block produced by `summarizeBlock` (either mode), a zero
reduced target yields percentOfTarget 0, and a nonzero target yields exactly
`(actual / target) * 100`; the result lives in `ℚ`, so it is a finite
rational — never `NaN` or infinite — for finite numeric inputs. -/
theorem perc_zero_target_safe (l : List Row) (mk rk : Row → Option JsNum) (b : Bool) :
    ((summarizeBlock l mk rk b).meta = 0 → (summarizeBlock l mk rk b).perc = 0) ∧
    ((summarizeBlock l mk rk b).meta ≠ 0 →
      (summarizeBlock l mk rk b).perc =
        (summarizeBlock l mk rk b).real / (summarizeBlock l mk rk b).meta * 100) := by
  constructor
  · intro h
    rw [summarizeBlock_perc]
    simp [h]
  · intro h
    rw [summarizeBlock_perc]
    simp [h]

/-- Witness for C7 at the empty row list (zero target) and at a single row
with target 100 (nonzero target). -/
theorem perc_zero_target_safe_witness :
    (summarizeBlock [] (fun r => r.prazo_pedido_meta) (fun r => r.prazo_pedido_real)
        false).perc = 0 ∧
    (summarizeBlock [pedidoRow (JsNum.num 100) (JsNum.num 80)]
        (fun r => r.prazo_pedido_meta) (fun r => r.prazo_pedido_real) false).perc =
      (summarizeBlock [pedidoRow (JsNum.num 100) (JsNum.num 80)]
        (fun r => r.prazo_pedido_meta) (fun r => r.prazo_pedido_real) false).real /
      (summarizeBlock [pedidoRow (JsNum.num 100) (JsNum.num 80)]
        (fun r => r.prazo_pedido_meta) (fun r => r.prazo_pedido_real) false).meta * 100 := by
  constructor
  · exact (perc_zero_target_safe [] _ _ false).1 (by rw [summarizeBlock_nil])
  · exact (perc_zero_target_safe [pedidoRow (JsNum.num 100) (JsNum.num 80)] _ _ false).2
      (by norm_num [summarizeBlock_sum_meta, sumKey, contrib, pedidoRow, coalesce, money])

/-- C6: filtering with the all-entities sentinel `"Todas"` returns the row
sequence unchanged, and filtering by a specific (nonempty, non-sentinel)
entity label returns exactly the rows whose `obra` equals that label, as an
order-preserving sublist of the input. -/
theorem filter_entity_spec (rows : List Row) :
    filterObra rows (some "Todas") = rows ∧
    ∀ s : String, s ≠ "" → s ≠ "Todas" →
      List.Sublist (filterObra rows (some s)) rows ∧
      ∀ r : Row, r ∈ filterObra rows (some s) ↔ r ∈ rows ∧ r.obra = s := by
  refine ⟨filterObra_of_obraSel_none rows _ obraSel_todas, ?_⟩
  intro s hs1 hs2
  have hsel : obraSel (some s) = some s := by simp [obraSel, hs1, hs2]
  constructor
  · unfold filterObra
    rw [hsel]
    exact List.filter_sublist rows
  · intro r
    unfold filterObra
    rw [hsel, List.mem_filter]
    constructor
    · rintro ⟨h1, h2⟩
      exact ⟨h1, eq_of_beq h2⟩
    · rintro ⟨h1, h2⟩
      exact ⟨h1, by simp [h2]⟩

/-- Witness for C6 on a one-row list with the label `"X"`. -/
theorem filter_entity_spec_witness :
    filterObra [pedidoRow (JsNum.num 1) (JsNum.num 2)] (some "Todas") =
      [pedidoRow (JsNum.num 1) (JsNum.num 2)] ∧
    List.Sublist (filterObra [pedidoRow (JsNum.num 1) (JsNum.num 2)] (some "X"))
      [pedidoRow (JsNum.num 1) (JsNum.num 2)] ∧
    (pedidoRow (JsNum.num 1) (JsNum.num 2) ∈
        filterObra [pedidoRow (JsNum.num 1) (JsNum.num 2)] (some "X") ↔
      pedidoRow (JsNum.num 1) (JsNum.num 2) ∈ [pedidoRow (JsNum.num 1) (JsNum.num 2)] ∧
        (pedidoRow (JsNum.num 1) (JsNum.num 2)).obra = "X") := by
  refine ⟨(filter_entity_spec _).1,
    ((filter_entity_spec _).2 "X" (by decide) (by decide)).1,
    ((filter_entity_spec _).2 "X" (by decide) (by decide)).2 _⟩

/-- C10: an absent request `obra` and the empty-string label behave exactly
like the sentinel `"Todas"`: no entity filtering happens, the whole pipeline
result is identical, and the full row set is kept. -/
theorem absent_or_empty_obra_is_todas (ano : Option Int) (cy : Int) (rows : List Row) :
    analyzeCore ano none cy rows = analyzeCore ano (some "") cy rows ∧
    analyzeCore ano (some "") cy rows = analyzeCore ano (some "Todas") cy rows ∧
    filterObra rows none = rows ∧
    filterObra rows (some "") = rows := by
  refine ⟨analyzeCore_eq_of_obraSel _ _ _ _ _ ?_, analyzeCore_eq_of_obraSel _ _ _ _ _ ?_,
    filterObra_of_obraSel_none rows _ rfl, filterObra_of_obraSel_none rows _ obraSel_empty⟩
  · rw [obraSel_empty]
    rfl
  · rw [obraSel_empty, obraSel_todas]

/-- C4: the month series always contains exactly 12 records whose month codes
are `MONTHS_ORDER` (JAN..DEZ) in that fixed order, and a record whose month
bucket selects no rows carries the zero block `⟨0, 0, 0⟩` for all four metric
categories. -/
theorem month_series_twelve_fixed (filtered : List Row) (ano : Option Int) :
    (months filtered ano).map MonthRec.mes = MONTHS_ORDER ∧
    (months filtered ano).length = 12 ∧
    ∀ (i : ℕ) (h : i < (months filtered ano).length),
      bucketRows filtered ano (((months filtered ano).get ⟨i, h⟩).mes) = [] →
      ((months filtered ano).get ⟨i, h⟩).prazo_pedido = ⟨0, 0, 0⟩ ∧
      ((months filtered ano).get ⟨i, h⟩).prazo_entrega = ⟨0, 0, 0⟩ ∧
      ((months filtered ano).get ⟨i, h⟩).pontualidade = ⟨0, 0, 0⟩ ∧
      ((months filtered ano).get ⟨i, h⟩).negociacao = ⟨0, 0, 0⟩ := by
  refine ⟨?_, months_length filtered ano, ?_⟩
  · simp [months, MONTHS_ORDER, buildMonth]
  · intro i h hempty
    simp only [months, List.get_eq_getElem, List.getElem_map, buildMonth] at hempty ⊢
    rw [hempty]
    exact ⟨summarizeBlock_nil _ _ _, summarizeBlock_nil _ _ _,
      summarizeBlock_nil _ _ _, summarizeBlock_nil _ _ _⟩

/-- Witness for C4 at the empty row list, no year filter, month index 0. -/
theorem month_series_twelve_fixed_witness :
    bucketRows [] none (((months [] none).get ⟨0, by decide⟩).mes) = [] ∧
    ((months [] none).get ⟨0, by decide⟩).prazo_pedido = ⟨0, 0, 0⟩ ∧
    ((months [] none).get ⟨0, by decide⟩).prazo_entrega = ⟨0, 0, 0⟩ ∧
    ((months [] none).get ⟨0, by decide⟩).pontualidade = ⟨0, 0, 0⟩ ∧
    ((months [] none).get ⟨0, by decide⟩).negociacao = ⟨0, 0, 0⟩ := by
  exact ⟨rfl, (month_series_twelve_fixed [] none).2.2 0 (by decide) rfl⟩

/-- C5: in the month series with deltas, the record at index 0 carries the
empty delta map for all four metric categories, and every record at index
`i > 0` carries, per category, a delta object with exactly the three numeric
fields `meta`, `real`, `perc` (spec: target, actual, percentOfTarget), each
being the exact difference `curr[field] - prev[field]` against month `i - 1`
(`fieldDiffs`). -/
theorem month_deltas_spec (ms : List MonthRec) :
    (∀ h0 : 0 < (monthsWithDelta ms).length,
      ((monthsWithDelta ms).get ⟨0, h0⟩).delta_prazo_pedido = DeltaMap.empty ∧
      ((monthsWithDelta ms).get ⟨0, h0⟩).delta_prazo_entrega = DeltaMap.empty ∧
      ((monthsWithDelta ms).get ⟨0, h0⟩).delta_pontualidade = DeltaMap.empty ∧
      ((monthsWithDelta ms).get ⟨0, h0⟩).delta_negociacao = DeltaMap.empty) ∧
    ∀ (i : ℕ) (h2 : i < (monthsWithDelta ms).length) (h : i < ms.length)
      (hp : i - 1 < ms.length), 0 < i →
      ((monthsWithDelta ms).get ⟨i, h2⟩).delta_prazo_pedido =
        fieldDiffs ((ms.get ⟨i, h⟩).prazo_pedido) ((ms.get ⟨i - 1, hp⟩).prazo_pedido) ∧
      ((monthsWithDelta ms).get ⟨i, h2⟩).delta_prazo_entrega =
        fieldDiffs ((ms.get ⟨i, h⟩).prazo_entrega) ((ms.get ⟨i - 1, hp⟩).prazo_entrega) ∧
      ((monthsWithDelta ms).get ⟨i, h2⟩).delta_pontualidade =
        fieldDiffs ((ms.get ⟨i, h⟩).pontualidade) ((ms.get ⟨i - 1, hp⟩).pontualidade) ∧
      ((monthsWithDelta ms).get ⟨i, h2⟩).delta_negociacao =
        fieldDiffs ((ms.get ⟨i, h⟩).negociacao) ((ms.get ⟨i - 1, hp⟩).negociacao) := by
  constructor
  · intro h0
    have hlen : 0 < ms.length := by
      rw [monthsWithDelta_length] at h0
      exact h0
    rw [monthsWithDelta_get ms 0 hlen h0]
    simp [mkDelta]
  · intro i h2 h hp hpos
    rw [monthsWithDelta_get ms i h h2, if_pos hpos, List.getElem?_eq_getElem hp]
    simp [mkDelta, monthDelta, fieldDiffs, List.get_eq_getElem]

/-- Witness for C5 on the 12-month series built from the empty row list, at
indices 0 and 1. -/
theorem month_deltas_spec_witness :
    (((monthsWithDelta (months [] none)).get ⟨0, by decide⟩).delta_prazo_pedido =
        DeltaMap.empty ∧
      ((monthsWithDelta (months [] none)).get ⟨0, by decide⟩).delta_prazo_entrega =
        DeltaMap.empty ∧
      ((monthsWithDelta (months [] none)).get ⟨0, by decide⟩).delta_pontualidade =
        DeltaMap.empty ∧
      ((monthsWithDelta (months [] none)).get ⟨0, by decide⟩).delta_negociacao =
        DeltaMap.empty) ∧
    ((monthsWithDelta (months [] none)).get ⟨1, by decide⟩).delta_prazo_pedido =
      fieldDiffs (((months [] none).get ⟨1, by decide⟩).prazo_pedido)
        (((months [] none).get ⟨0, by decide⟩).prazo_pedido) ∧
    ((monthsWithDelta (months [] none)).get ⟨1, by decide⟩).delta_prazo_entrega =
      fieldDiffs (((months [] none).get ⟨1, by decide⟩).prazo_entrega)
        (((months [] none).get ⟨0, by decide⟩).prazo_entrega) ∧
    ((monthsWithDelta (months [] none)).get ⟨1, by decide⟩).delta_pontualidade =
      fieldDiffs (((months [] none).get ⟨1, by decide⟩).pontualidade)
        (((months [] none).get ⟨0, by decide⟩).pontualidade) ∧
    ((monthsWithDelta (months [] none)).get ⟨1, by decide⟩).delta_negociacao =
      fieldDiffs (((months [] none).get ⟨1, by decide⟩).negociacao)
        (((months [] none).get ⟨0, by decide⟩).negociacao) := by
  exact ⟨(month_deltas_spec (months [] none)).1 (by decide),
    (month_deltas_spec (months [] none)).2 1 (by decide) (by decide) (by decide) (by decide)⟩

/-- C9: a row with an absent year is assigned the request year during
normalization when one is supplied (and the current calendar year when not),
and such a row then passes the per-month-bucket year test, so it lands in its
bucket of its month. -/
theorem absent_year_defaults (a cy : Int) (r : Row) (h : r.ano = none) :
    (normRow (some a) cy r).ano = some a ∧
    yearTest (some a) (normRow (some a) cy r) = true ∧
    (normRow none cy r).ano = some cy ∧
    ∀ (filtered : List Row) (m : String),
      normRow (some a) cy r ∈ filtered → (normRow (some a) cy r).mes = m →
      normRow (some a) cy r ∈ bucketRows filtered (some a) m := by
  refine ⟨by simp [normRow, h], ?_, by simp [normRow, h], ?_⟩
  · simp [yearTest, normRow, h, anoFalsy]
  · intro filtered m hmem hmes
    unfold bucketRows
    rw [List.mem_filter]
    refine ⟨hmem, ?_⟩
    rw [Bool.and_eq_true]
    constructor
    · simp [hmes]
    · simp [yearTest, normRow, h, anoFalsy]

/-- Witness for C9 at request year 2024, current year 2025, on a row with no
year of its own. -/
theorem absent_year_defaults_witness :
    (normRow (some 2024) 2025 (pontRow (JsNum.num 1) (JsNum.num 2))).ano = some 2024 ∧
    yearTest (some 2024) (normRow (some 2024) 2025 (pontRow (JsNum.num 1) (JsNum.num 2))) =
      true ∧
    (normRow none 2025 (pontRow (JsNum.num 1) (JsNum.num 2))).ano = some 2025 ∧
    normRow (some 2024) 2025 (pontRow (JsNum.num 1) (JsNum.num 2)) ∈
      bucketRows [normRow (some 2024) 2025 (pontRow (JsNum.num 1) (JsNum.num 2))]
        (some 2024) ((normRow (some 2024) 2025 (pontRow (JsNum.num 1) (JsNum.num 2))).mes) := by
  obtain ⟨h1, h2, h3, h4⟩ :=
    absent_year_defaults 2024 2025 (pontRow (JsNum.num 1) (JsNum.num 2)) rfl
  exact ⟨h1, h2, h3, h4 _ _ (List.mem_singleton.mpr rfl) rfl⟩

/-- C8: when the narrative collaborator fails — it throws, or its returned
text does not parse — the `/analyze-obras` handler still answers `ok: true`
with the full YTD blocks and the 12 month records with deltas, and the
`analise` field is the empty object (`none`). -/
theorem handler_survives_narrative_failure {α : Type} (parse : String → Option α)
    (outcome : NarrativeOutcome) (ano : Option Int) (obra : Option String)
    (cy : Int) (rows : List Row)
    (h : outcome = NarrativeOutcome.thrown ∨
      ∃ raw, outcome = NarrativeOutcome.returned raw ∧ parse raw = none) :
    (analyzeObrasHandler parse outcome ano obra cy rows).ok = true ∧
    (analyzeObrasHandler parse outcome ano obra cy rows).ytd =
      (analyzeCore ano obra cy rows).ytd ∧
    (analyzeObrasHandler parse outcome ano obra cy rows).meses =
      (analyzeCore ano obra cy rows).meses ∧
    ((analyzeObrasHandler parse outcome ano obra cy rows).meses).length = 12 ∧
    (analyzeObrasHandler parse outcome ano obra cy rows).analise = none := by
  refine ⟨rfl, rfl, rfl, ?_, ?_⟩
  · show ((analyzeCore ano obra cy rows).meses).length = 12
    simp only [analyzeCore]
    rw [monthsWithDelta_length, months_length]
  · show runAnalise parse outcome = none
    rcases h with h | ⟨raw, h1, h2⟩
    · rw [h]
      rfl
    · rw [h1]
      exact h2

/-- Witness for C8 with a collaborator that throws, on the empty request. -/
theorem handler_survives_narrative_failure_witness :
    (analyzeObrasHandler (fun _ => (none : Option Unit)) NarrativeOutcome.thrown
        none none 2025 []).ok = true ∧
    (analyzeObrasHandler (fun _ => (none : Option Unit)) NarrativeOutcome.thrown
        none none 2025 []).ytd = (analyzeCore none none 2025 []).ytd ∧
    (analyzeObrasHandler (fun _ => (none : Option Unit)) NarrativeOutcome.thrown
        none none 2025 []).meses = (analyzeCore none none 2025 []).meses ∧
    ((analyzeObrasHandler (fun _ => (none : Option Unit)) NarrativeOutcome.thrown
        none none 2025 []).meses).length = 12 ∧
    (analyzeObrasHandler (fun _ => (none : Option Unit)) NarrativeOutcome.thrown
        none none 2025 []).analise = none := by
  exact handler_survives_narrative_failure (fun _ => (none : Option Unit))
    NarrativeOutcome.thrown none none 2025 [] (Or.inl rfl)

/-- C1 counterexample: with the year filter 2024 and one 2023 row, the
YTD prazo_pedido block of the pipeline has target 100, but the claimed
year-restricted YTD over the same filtered set is the zero block — the YTD
aggregates are computed without the year restriction the claim asserts. -/
theorem ytd_ignores_year_filter_counterexample :
    (analyzeCore (some 2024) none 2024 [row2023]).ytd ≠
      ytdSpecYearRestricted (filterObra ([row2023].map (normRow (some 2024) 2024)) none)
        2024 := by
  have hL : (analyzeCore (some 2024) none 2024 [row2023]).ytd.prazo_pedido.meta = 100 := by
    norm_num [analyzeCore, ytd, filterObra, obraSel, normRow, summarizeBlock, summarizeStep,
      coalesce, money, row2023]
  have hR : (ytdSpecYearRestricted
      (filterObra ([row2023].map (normRow (some 2024) 2024)) none)
      2024).prazo_pedido.meta = 0 := by
    norm_num [ytdSpecYearRestricted, ytd, filterObra, obraSel, normRow, summarizeBlock,
      summarizeStep, coalesce, money, row2023]
  intro hEq
  rw [hEq, hR] at hL
  norm_num at hL

/-- C1 (amended): when a year filter is present only the per-month bucketing
restricts to rows whose year equals it; the four YTD blocks are computed over
the entire entity-filtered row set, unchanged by the requested year (and by
the current calendar year). -/
theorem ytd_ignores_year_filter (a a2 : Option Int) (cy cy2 : Int)
    (o : Option String) (rows filtered : List Row) (az : Int) (m : String) (r : Row) :
    (analyzeCore a o cy rows).ytd = (analyzeCore a2 o cy2 rows).ytd ∧
    (az ≠ 0 → r ∈ bucketRows filtered (some az) m → r.ano = some az) := by
  exact ⟨analyzeCore_ytd_year_free a a2 cy cy2 o rows,
    fun h1 h2 => bucketRows_year filtered az m r h1 h2⟩

/-- Witness for the amended statement of C1: the YTD of the 2023 row is the same
under the 2024 filter and under no filter, and the row sits in the JAN bucket
of year 2023 with `ano = 2023`. -/
theorem ytd_ignores_year_filter_witness :
    (analyzeCore (some 2024) none 2024 [row2023]).ytd =
      (analyzeCore none none 2025 [row2023]).ytd ∧
    row2023.ano = some 2023 := by
  obtain ⟨h1, h2⟩ := ytd_ignores_year_filter (some 2024) none 2024 2025 none
    [row2023] [row2023] 2023 "JAN" row2023
  exact ⟨h1, h2 (by decide) (by decide)⟩

end Binotto
